import Mathlib

/-!
Shallow embedding of the execution core of the flux durable-workflow engine
(src/flux), covering the event-sourced ExecutionContext and its typed
lifecycle helpers (src/flux/domain/execution_context.py), the workflow
runtime wrapper (src/flux/workflow.py), the task retry closure
(src/flux/task.py), and the SQLite context manager operations
(src/flux/context_managers.py).

Machine-level details that do not affect the verified properties are made
explicit parameters: randomly generated event ids (uuid4 in the events
module, which is absent from src) are threaded as explicit arguments, and
wall-clock timestamps are fixed to 0.  Parts of the repository that the
claims depend on but that are missing from src (the events module, the
resource-request matching, the live task runtime in flux/decorators.py and
the JSON encoder) are modelled from the specification; each such definition
carries a doc comment starting with "Modelled from the spec:".
-/

namespace Flux

/-- The closed set of execution event types, as enumerated in the spec's
data model (the events module flux/domain/events.py is absent from src;
the member names follow the usages in src, e.g. WORKFLOW_CANCELED in
ExecutionContext.has_finished). -/
inductive ExecutionEventType
  | WORKFLOW_SCHEDULED
  | WORKFLOW_CLAIMED
  | WORKFLOW_STARTED
  | WORKFLOW_RESUMED
  | WORKFLOW_PAUSED
  | WORKFLOW_COMPLETED
  | WORKFLOW_FAILED
  | WORKFLOW_CANCELLING
  | WORKFLOW_CANCELED
  | TASK_STARTED
  | TASK_COMPLETED
  | TASK_FAILED
  | TASK_RETRY_STARTED
  | TASK_RETRY_COMPLETED
  | TASK_FALLBACK_STARTED
  | TASK_FALLBACK_COMPLETED
  | TASK_ROLLBACK_STARTED
  | TASK_ROLLBACK_COMPLETED
  | TASK_RESUMED
  deriving DecidableEq

/-- The closed set of execution states (flux/domain/events.py is absent
from src; member names follow the usages in src: ExecutionState.CREATED,
SCHEDULED, CLAIMED, RUNNING, PAUSED, COMPLETED, FAILED, CANCELED in
execution_context.py, plus CANCELLING from the spec's state machine). -/
inductive ExecutionState
  | CREATED
  | SCHEDULED
  | CLAIMED
  | RUNNING
  | PAUSED
  | COMPLETED
  | FAILED
  | CANCELLING
  | CANCELED
  deriving DecidableEq

/-- Event payloads: arbitrary Python objects in the source, restricted here
to the shapes the execution core actually stores (None, strings, numbers,
exceptions carried as values, and the retry-metadata dict built in
src/flux/task.py). -/
inductive Value
  | vnone
  | vstr (s : String)
  | vnat (n : Nat)
  | verr (e : String)
  | retryMeta (current_attempt max_attempts current_delay backoff : Nat)
  deriving DecidableEq

/-- An execution event record (spec data model; flux/domain/events.py is
absent from src).  The field id is the replay key event_id; time is the
creation timestamp, fixed to 0 here since no verified property depends on
wall-clock values. -/
structure ExecutionEvent where
  type : ExecutionEventType
  id : String
  source_id : String
  name : String
  value : Value
  time : Nat
  deriving DecidableEq

/-- Errors of the execution core that the embedded operations can surface
(src/flux/errors.py; CancelationRequested is imported by
execution_context.py but its class is absent from src/flux/errors.py, so it
is modelled from the spec's error taxonomy as a distinct kind under the
ExecutionError base, hence caught by an except Exception clause). -/
inductive FluxError
  | executionContextNotFound (execution_id : String)
  | cancelationRequested
  deriving DecidableEq

/-- Declared resource requirements of an execution.  Modelled from the
spec: flux/domain/resource_request.py is absent from src; fields per the
spec's Resource Requests data model (memory already normalised to bytes;
packages given as name, name==version or name>=version strings). -/
structure ResourceRequest where
  cpu : Option Nat
  memory : Option Nat
  disk : Option Nat
  gpu : Option Nat
  packages : List String
  deriving DecidableEq

/-- A GPU entry of a worker's resource snapshot (models.py
WorkerResourcesGPUModel). -/
structure GpuInfo where
  name : String
  memory_total : Nat
  memory_available : Nat
  deriving DecidableEq

/-- A worker's resource snapshot (models.py WorkerResourcesModel). -/
structure WorkerResources where
  cpu_total : Nat
  cpu_available : Nat
  memory_total : Nat
  memory_available : Nat
  disk_total : Nat
  disk_free : Nat
  gpus : List GpuInfo
  deriving DecidableEq

/-- An installed package of a worker (models.py WorkerPackageModel). -/
structure PackageInfo where
  name : String
  version : String
  deriving DecidableEq

/-- The worker information the context manager consults
(flux/worker_registry.py is absent from src; fields are the ones used in
src: worker.name, worker.resources, worker.packages). -/
structure WorkerInfo where
  name : String
  resources : WorkerResources
  packages : List PackageInfo
  deriving DecidableEq

/-- Compares one dot-separated version token.  Modelled from the spec:
version satisfaction compares tokens numerically when possible,
lexicographically otherwise. -/
def tokenCmp (a b : String) : Ordering :=
  match a.toNat?, b.toNat? with
  | some m, some n => compare m n
  | _, _ => compare a b

/-- Compares token lists position by position. -/
def versionCmpAux : List String → List String → Ordering
  | [], [] => Ordering.eq
  | [], _ :: _ => Ordering.lt
  | _ :: _, [] => Ordering.gt
  | a :: as, b :: bs =>
    match tokenCmp a b with
    | Ordering.eq => versionCmpAux as bs
    | o => o

/-- Compares two dot-separated version strings. -/
def versionCmp (v w : String) : Ordering :=
  versionCmpAux (v.splitOn ".") (w.splitOn ".")

/-- Whether one package requirement (name, name==version or name>=version)
is satisfied by the worker's installed packages.  Modelled from the spec's
Resource Requests matching rules. -/
def packageSatisfied (req : String) (pkgs : List PackageInfo) : Bool :=
  match req.splitOn "==" with
  | [n, v] => pkgs.any fun p => decide (p.name = n) && decide (versionCmp p.version v = Ordering.eq)
  | _ =>
    match req.splitOn ">=" with
    | [n, v] => pkgs.any fun p =>
        decide (p.name = n) &&
          (decide (versionCmp p.version v = Ordering.gt) ||
            decide (versionCmp p.version v = Ordering.eq))
    | _ => pkgs.any fun p => decide (p.name = req)

/-- Whether a worker satisfies the declared resource requests.  Modelled
from the spec: each declared field must be at most the worker's available
value (gpu compares against the number of GPUs present), and every listed
package must be satisfied. -/
def ResourceRequest.matches_worker (req : ResourceRequest) (res : WorkerResources)
    (pkgs : List PackageInfo) : Bool :=
  (match req.cpu with
   | some c => decide (c ≤ res.cpu_available)
   | none => true) &&
  (match req.memory with
   | some m => decide (m ≤ res.memory_available)
   | none => true) &&
  (match req.disk with
   | some d => decide (d ≤ res.disk_free)
   | none => true) &&
  (match req.gpu with
   | some g => decide (g ≤ res.gpus.length)
   | none => true) &&
  req.packages.all (fun s => packageSatisfied s pkgs)

/-- The in-memory execution context (src/flux/domain/execution_context.py).
The cancelSet flag embeds the asyncio.Event _cancel_event (set or not);
checkpoint_cb is an opaque handle to the injected checkpoint callback,
none standing for the no-op default installed by the constructor; requests
holds the optional ResourceRequest. -/
structure ExecutionContext where
  workflow_id : String
  workflow_name : String
  input : Value
  execution_id : String
  events : List ExecutionEvent
  state : ExecutionState
  cancelSet : Bool
  checkpoint_cb : Option Nat
  requests : Option ResourceRequest
  deriving DecidableEq

/-- The constructor of ExecutionContext (execution_context.py lines 29-48):
falsy defaults are applied with Python or-semantics; freshId stands for the
uuid4().hex generated when no execution id is given (an empty string is
falsy in Python, hence also replaced); the cancel event starts unset and
the checkpoint callback defaults to the no-op (none). -/
def ExecutionContext.init (workflow_id workflow_name : String) (input : Value)
    (execution_id : Option String) (state : Option ExecutionState)
    (events : Option (List ExecutionEvent)) (checkpoint_cb : Option Nat)
    (requests : Option ResourceRequest) (freshId : String) : ExecutionContext :=
  { workflow_id := workflow_id
    workflow_name := workflow_name
    input := input
    execution_id := if (execution_id.getD "").isEmpty then freshId else execution_id.getD ""
    events := events.getD []
    state := state.getD ExecutionState.CREATED
    cancelSet := false
    checkpoint_cb := checkpoint_cb
    requests := requests }

/-- has_finished (execution_context.py lines 91-97): the event list is
nonempty and its last event is WORKFLOW_COMPLETED, WORKFLOW_FAILED or
WORKFLOW_CANCELED. -/
def ExecutionContext.has_finished (ctx : ExecutionContext) : Bool :=
  match ctx.events.getLast? with
  | some e =>
    decide (e.type = ExecutionEventType.WORKFLOW_COMPLETED) ||
      decide (e.type = ExecutionEventType.WORKFLOW_FAILED) ||
      decide (e.type = ExecutionEventType.WORKFLOW_CANCELED)
  | none => false

/-- is_paused (execution_context.py lines 112-123): the last event is
WORKFLOW_PAUSED. -/
def ExecutionContext.is_paused (ctx : ExecutionContext) : Bool :=
  match ctx.events.getLast? with
  | some e => decide (e.type = ExecutionEventType.WORKFLOW_PAUSED)
  | none => false

/-- has_started (execution_context.py lines 138-139): some event is
WORKFLOW_STARTED. -/
def ExecutionContext.has_started (ctx : ExecutionContext) : Bool :=
  ctx.events.any fun e => decide (e.type = ExecutionEventType.WORKFLOW_STARTED)

/-- output (execution_context.py lines 157-170): the value of the first
event whose type is WORKFLOW_COMPLETED or WORKFLOW_FAILED, None when there
is no such event. -/
def ExecutionContext.output (ctx : ExecutionContext) : Value :=
  match ctx.events.filter (fun e =>
      decide (e.type = ExecutionEventType.WORKFLOW_COMPLETED) ||
        decide (e.type = ExecutionEventType.WORKFLOW_FAILED)) with
  | [] => Value.vnone
  | e :: _ => e.value

/-- schedule (execution_context.py lines 172-181): set the cached state to
SCHEDULED and append WORKFLOW_SCHEDULED with the worker's name as both
source_id and name; eid is the event id generated by the events module. -/
def ExecutionContext.schedule (ctx : ExecutionContext) (worker : WorkerInfo)
    (eid : String) : ExecutionContext :=
  { ctx with
    state := ExecutionState.SCHEDULED
    events := ctx.events ++
      [{ type := ExecutionEventType.WORKFLOW_SCHEDULED, id := eid,
         source_id := worker.name, name := worker.name, value := Value.vnone, time := 0 }] }

/-- claim (execution_context.py lines 183-192): set the cached state to
CLAIMED and append WORKFLOW_CLAIMED with the worker's name as both
source_id and name. -/
def ExecutionContext.claim (ctx : ExecutionContext) (worker : WorkerInfo)
    (eid : String) : ExecutionContext :=
  { ctx with
    state := ExecutionState.CLAIMED
    events := ctx.events ++
      [{ type := ExecutionEventType.WORKFLOW_CLAIMED, id := eid,
         source_id := worker.name, name := worker.name, value := Value.vnone, time := 0 }] }

/-- start (execution_context.py lines 194-204): set the cached state to
RUNNING and append WORKFLOW_STARTED carrying the input. -/
def ExecutionContext.start (ctx : ExecutionContext) (id : String)
    (eid : String) : ExecutionContext :=
  { ctx with
    state := ExecutionState.RUNNING
    events := ctx.events ++
      [{ type := ExecutionEventType.WORKFLOW_STARTED, id := eid, source_id := id,
         name := ctx.workflow_name, value := ctx.input, time := 0 }] }

/-- resume (execution_context.py lines 206-216): set the cached state to
RUNNING and append WORKFLOW_RESUMED carrying the input. -/
def ExecutionContext.resume (ctx : ExecutionContext) (id : String)
    (eid : String) : ExecutionContext :=
  { ctx with
    state := ExecutionState.RUNNING
    events := ctx.events ++
      [{ type := ExecutionEventType.WORKFLOW_RESUMED, id := eid, source_id := id,
         name := ctx.workflow_name, value := ctx.input, time := 0 }] }

/-- pause (execution_context.py lines 218-228): set the cached state to
PAUSED and append WORKFLOW_PAUSED carrying the pause label. -/
def ExecutionContext.pause (ctx : ExecutionContext) (id : String) (label : String)
    (eid : String) : ExecutionContext :=
  { ctx with
    state := ExecutionState.PAUSED
    events := ctx.events ++
      [{ type := ExecutionEventType.WORKFLOW_PAUSED, id := eid, source_id := id,
         name := ctx.workflow_name, value := Value.vstr label, time := 0 }] }

/-- complete (execution_context.py lines 230-240): set the cached state to
COMPLETED and append WORKFLOW_COMPLETED carrying the output. -/
def ExecutionContext.complete (ctx : ExecutionContext) (id : String) (output : Value)
    (eid : String) : ExecutionContext :=
  { ctx with
    state := ExecutionState.COMPLETED
    events := ctx.events ++
      [{ type := ExecutionEventType.WORKFLOW_COMPLETED, id := eid, source_id := id,
         name := ctx.workflow_name, value := output, time := 0 }] }

/-- fail (execution_context.py lines 242-252): set the cached state to
FAILED and append WORKFLOW_FAILED carrying the error as value. -/
def ExecutionContext.fail (ctx : ExecutionContext) (id : String) (output : Value)
    (eid : String) : ExecutionContext :=
  { ctx with
    state := ExecutionState.FAILED
    events := ctx.events ++
      [{ type := ExecutionEventType.WORKFLOW_FAILED, id := eid, source_id := id,
         name := ctx.workflow_name, value := output, time := 0 }] }

/-- cancel (execution_context.py lines 254-274): set the cached state to
CANCELED and append WORKFLOW_CANCELED carrying the reason. -/
def ExecutionContext.cancel (ctx : ExecutionContext) (id : String) (reason : String)
    (eid : String) : ExecutionContext :=
  { ctx with
    state := ExecutionState.CANCELED
    events := ctx.events ++
      [{ type := ExecutionEventType.WORKFLOW_CANCELED, id := eid, source_id := id,
         name := ctx.workflow_name, value := Value.vstr reason, time := 0 }] }

/-- set_cancellation (execution_context.py lines 331-335): set the
in-memory cancel event. -/
def ExecutionContext.set_cancellation (ctx : ExecutionContext) : ExecutionContext :=
  { ctx with cancelSet := true }

/-- check_cancellation (execution_context.py lines 321-329): raise
CancelationRequested when the in-memory cancel event is set. -/
def ExecutionContext.check_cancellation (ctx : ExecutionContext) : Except FluxError Unit :=
  if ctx.cancelSet then Except.error FluxError.cancelationRequested else Except.ok ()

/-- The outcome of running the user procedure of a workflow, abstracting
the Python exception flow of workflow.__call__: a normal return, a raised
PauseRequested, a raised CancelationRequested (an ExecutionError, hence an
Exception), or any other raised exception. -/
inductive BodyOutcome
  | success (output : Value)
  | pauseRequested (label : String)
  | cancelationRequested
  | failure (err : String)
  deriving DecidableEq

/-- workflow.__call__ (src/flux/workflow.py lines 59-85): return the
context unchanged when it has finished; otherwise emit WORKFLOW_RESUMED
when paused or WORKFLOW_STARTED when not yet started; then run the user
procedure and translate its outcome through the except chain: a normal
return appends WORKFLOW_COMPLETED, a PauseRequested appends
WORKFLOW_PAUSED, and every other exception, CancelationRequested included,
is caught by the except Exception clause and appends WORKFLOW_FAILED with
the exception as value.  wid embeds self.id; eid1 and eid2 are the
generated event ids of the entry and exit events. -/
def workflowCall (ctx : ExecutionContext) (wid : String) (body : BodyOutcome)
    (eid1 eid2 : String) : ExecutionContext :=
  if ctx.has_finished then ctx
  else
    let ctx1 :=
      if ctx.is_paused then ctx.resume wid eid1
      else if !ctx.has_started then ctx.start wid eid1
      else ctx
    match body with
    | BodyOutcome.success out => ctx1.complete wid out eid2
    | BodyOutcome.pauseRequested label => ctx1.pause wid label eid2
    | BodyOutcome.cancelationRequested => ctx1.fail wid (Value.verr "CancelationRequested") eid2
    | BodyOutcome.failure err => ctx1.fail wid (Value.verr err) eid2

/-- Looks up a prior TASK_COMPLETED with the given replay key in the
context's events. -/
def taskReplayLookup (events : List ExecutionEvent) (event_id : String) :
    Option ExecutionEvent :=
  events.find? fun e =>
    decide (e.type = ExecutionEventType.TASK_COMPLETED) && decide (e.id = event_id)

/-- Result of one task invocation: the event list after the call, the
value returned to the caller, and whether the user procedure was invoked. -/
structure TaskRunResult where
  events : List ExecutionEvent
  output : Value
  invoked : Bool
  deriving DecidableEq

/-- Modelled from the spec: the live task runtime (flux/decorators.py,
the module flux/__init__.py imports task from) is absent from src;
src/flux/task.py only consumes an externally supplied replay flag.  Spec
4.2: compute event_id as the replay anchor; if the context's events
already contain a TASK_COMPLETED with matching event_id, return its value
without invoking the user procedure and emit TASK_RESUMED; otherwise
append TASK_STARTED, run the user procedure (funcOutput abstracts its
return value) and append TASK_COMPLETED. -/
def taskRun (ctx : ExecutionContext) (event_id task_name : String)
    (funcOutput : Value) : TaskRunResult :=
  match taskReplayLookup ctx.events event_id with
  | some e =>
    { events := ctx.events ++
        [{ type := ExecutionEventType.TASK_RESUMED, id := event_id,
           source_id := event_id, name := task_name, value := e.value, time := 0 }]
      output := e.value
      invoked := false }
  | none =>
    { events := ctx.events ++
        [{ type := ExecutionEventType.TASK_STARTED, id := event_id,
           source_id := event_id, name := task_name, value := Value.vnone, time := 0 },
         { type := ExecutionEventType.TASK_COMPLETED, id := event_id,
           source_id := event_id, name := task_name, value := funcOutput, time := 0 }]
      output := funcOutput
      invoked := true }

/-- Final outcome of the retry section of the task closure. -/
inductive TaskOutcome
  | success (v : Value)
  | fallbackUsed (v : Value)
  | retryExhausted (err : String)
  deriving DecidableEq

/-- Observable trace of the retry section: the sleep durations performed
(in order), the events yielded, and the final outcome. -/
structure RetryTrace where
  delays : List Nat
  events : List ExecutionEvent
  outcome : TaskOutcome
  deriving DecidableEq

/-- The retry metadata event yielded by the closure (src/flux/task.py):
current_delay carries the value min(retry_delay * retry_backoff, 600)
computed after the sleep. -/
def retryEvent (t : ExecutionEventType) (task_id task_name : String)
    (attempt maxAttempts shownDelay backoff : Nat) : ExecutionEvent :=
  { type := t, id := task_id, source_id := task_id, name := task_name,
    value := Value.retryMeta attempt maxAttempts shownDelay backoff, time := 0 }

/-- The retry loop of the task closure (src/flux/task.py lines 40-90),
run over the list of remaining attempt numbers (the while loop visits
attempts 1 .. retry_max_attemps).  Each iteration resets current_delay to
retry_delay, sleeps that amount, computes
current_delay := min(current_delay * retry_backoff, 600) (recorded in the
retry events but never slept), yields TASK_RETRY_STARTED, runs the user
function (attemptResult gives its outcome per attempt number), yields
TASK_RETRY_COMPLETED and stops on success; on an exception at the last
attempt it either runs the fallback between TASK_FALLBACK_STARTED and
TASK_FALLBACK_COMPLETED or surfaces a RetryException, and on an earlier
attempt it continues the loop. -/
def retryGo (maxAttempts delay backoff : Nat) (fallback : Option Value)
    (task_id task_name : String) (attemptResult : Nat → Except String Value) :
    List Nat → RetryTrace
  | [] =>
    { delays := [], events := [], outcome := TaskOutcome.retryExhausted "no attempts" }
  | a :: rest =>
    let shown := min (delay * backoff) 600
    let startEvt := retryEvent ExecutionEventType.TASK_RETRY_STARTED task_id task_name
      a maxAttempts shown backoff
    match attemptResult a with
    | Except.ok v =>
      { delays := [delay]
        events := [startEvt,
          retryEvent ExecutionEventType.TASK_RETRY_COMPLETED task_id task_name
            a maxAttempts shown backoff]
        outcome := TaskOutcome.success v }
    | Except.error err =>
      if rest.isEmpty then
        match fallback with
        | some fv =>
          { delays := [delay]
            events := [startEvt,
              { type := ExecutionEventType.TASK_FALLBACK_STARTED, id := task_id,
                source_id := task_id, name := task_name, value := Value.vnone, time := 0 },
              { type := ExecutionEventType.TASK_FALLBACK_COMPLETED, id := task_id,
                source_id := task_id, name := task_name, value := Value.vnone, time := 0 }]
            outcome := TaskOutcome.fallbackUsed fv }
        | none =>
          { delays := [delay], events := [startEvt],
            outcome := TaskOutcome.retryExhausted err }
      else
        let t := retryGo maxAttempts delay backoff fallback task_id task_name
          attemptResult rest
        { delays := delay :: t.delays, events := startEvt :: t.events,
          outcome := t.outcome }

/-- The full retry section entered when the first execution of the user
function raised and retry_max_attemps > 0: attempts 1 .. maxAttempts. -/
def retrySection (maxAttempts delay backoff : Nat) (fallback : Option Value)
    (task_id task_name : String) (attemptResult : Nat → Except String Value) :
    RetryTrace :=
  retryGo maxAttempts delay backoff fallback task_id task_name attemptResult
    (List.range' 1 maxAttempts)

/-- A stored execution row together with its ordered event rows
(models.py ExecutionContextModel with its events relationship; event rows
are kept as plain ExecutionEvent records since
ExecutionEventModel.from_plain/to_plain preserve every field, renaming id
to event_id and dropping only the auto-increment key).  The requests
column is modelled from the spec: src's ExecutionContextModel does not
persist resource_requests although next_execution consults ctx.requests,
so the stored row carries the optional ResourceRequest the context was
created with. -/
structure StoredExecution where
  execution_id : String
  workflow_id : String
  workflow_name : String
  input : Value
  output : Value
  state : ExecutionState
  worker_name : Option String
  requests : Option ResourceRequest
  events : List ExecutionEvent
  deriving DecidableEq

/-- The executions table: rows in insertion order. -/
abbrev ContextStore := List StoredExecution

/-- to_plain (models.py lines 363-372): rebuild the in-memory context from
the row (the constructor installs a fresh unset cancel event and the no-op
checkpoint; src's ExecutionContext has no slot for the row's worker_name,
so it is dropped). -/
def StoredExecution.to_plain (m : StoredExecution) : ExecutionContext :=
  { workflow_id := m.workflow_id
    workflow_name := m.workflow_name
    input := m.input
    execution_id := m.execution_id
    events := m.events
    state := m.state
    cancelSet := false
    checkpoint_cb := none
    requests := m.requests }

/-- from_plain (models.py lines 374-385): build a row from a context; the
output column stores the context's derived output property and worker_name
is absent in src's ExecutionContext. -/
def StoredExecution.from_plain (ctx : ExecutionContext) : StoredExecution :=
  { execution_id := ctx.execution_id
    workflow_id := ctx.workflow_id
    workflow_name := ctx.workflow_name
    input := ctx.input
    output := ctx.output
    state := ctx.state
    worker_name := none
    requests := ctx.requests
    events := ctx.events }

/-- session.get(ExecutionContextModel, execution_id): the row with the
given primary key. -/
def getRow (store : ContextStore) (execution_id : String) : Option StoredExecution :=
  List.find? (fun m => decide (m.execution_id = execution_id)) store

/-- The (event_id, type) pairs of a stored event list, as collected by
SQLiteContextManager._get_additional_events (context_managers.py lines
120-130). -/
def eventKeys (events : List ExecutionEvent) : List (String × ExecutionEventType) :=
  events.map fun e => (e.id, e.type)

/-- _get_additional_events (context_managers.py lines 120-130): the
context's events whose (event_id, type) pair is not yet among the stored
events. -/
def additionalEvents (ctxEvents storedEvents : List ExecutionEvent) :
    List ExecutionEvent :=
  ctxEvents.filter fun e => decide ((e.id, e.type) ∉ eventKeys storedEvents)

/-- ContextManager.get (context_managers.py lines 46-51): the context of
the stored row, or ExecutionContextNotFoundError. -/
def getCtx (store : ContextStore) (execution_id : String) :
    Except FluxError ExecutionContext :=
  match getRow store execution_id with
  | some m => Except.ok m.to_plain
  | none => Except.error (FluxError.executionContextNotFound execution_id)

/-- ContextManager.save (context_managers.py lines 53-70): upsert.  When a
row with the context's execution_id exists, overwrite its output and state
and extend its events with exactly the additional events; otherwise insert
a new row from the context. -/
def save (store : ContextStore) (ctx : ExecutionContext) : ContextStore :=
  match getRow store ctx.execution_id with
  | some _ =>
    store.map fun m =>
      if m.execution_id = ctx.execution_id then
        { m with
          output := ctx.output
          state := ctx.state
          events := m.events ++ additionalEvents ctx.events m.events }
      else m
  | none => store ++ [StoredExecution.from_plain ctx]

/-- ContextManager.claim (context_managers.py lines 108-118): look the row
up by execution_id alone; when present, unconditionally apply
ExecutionContext.claim (appending WORKFLOW_CLAIMED and setting the state
to CLAIMED, with no check of the current state or bound worker), write the
new state and the additional events back, and return the claimed context;
only a missing row raises ExecutionContextNotFoundError.  eid is the event
id generated for the WORKFLOW_CLAIMED event. -/
def claimStore (store : ContextStore) (execution_id : String) (worker : WorkerInfo)
    (eid : String) : Except FluxError (ContextStore × ExecutionContext) :=
  match getRow store execution_id with
  | some m =>
    let ctx := m.to_plain.claim worker eid
    Except.ok
      (store.map fun r =>
        if r.execution_id = execution_id then
          { r with
            state := ctx.state
            events := r.events ++ additionalEvents ctx.events r.events }
        else r,
       ctx)
  | none => Except.error (FluxError.executionContextNotFound execution_id)

/-- Whether a row's declared resource requests (if any) are satisfied by
the worker, as checked in the selection loop of next_execution
(context_managers.py lines 88-96): no requests means any worker will do. -/
def reqOk (m : StoredExecution) (worker : WorkerInfo) : Bool :=
  match m.requests with
  | some req => req.matches_worker worker.resources worker.packages
  | none => true

/-- ContextManager.next_execution (context_managers.py lines 72-106):
query the rows in CREATED state, walk them in order and pick the first
whose resource requests the worker satisfies; schedule it (appending
WORKFLOW_SCHEDULED bound to the worker and setting the state to
SCHEDULED), write the new state and additional events back and return the
scheduled context; return none when no row qualifies. -/
def nextExecution (store : ContextStore) (worker : WorkerInfo) (eid : String) :
    Option (ContextStore × ExecutionContext) :=
  match (store.filter fun m => decide (m.state = ExecutionState.CREATED)).find?
      (fun m => reqOk m worker) with
  | some m =>
    let ctx := m.to_plain.schedule worker eid
    some
      (store.map fun r =>
        if r.execution_id = m.execution_id then
          { r with
            state := ctx.state
            events := r.events ++ additionalEvents ctx.events r.events }
        else r,
       ctx)
  | none => none

/-- The serialized form of a context.  Modelled from the spec: to_json
uses FluxEncoder from flux/utils.py, which is absent from src; the dict
carries the context's public fields, of which from_json
(execution_context.py lines 292-301) reads exactly workflow_id,
workflow_name, input, execution_id, state and events. -/
structure CtxDict where
  workflow_id : String
  workflow_name : String
  input : Value
  execution_id : String
  state : ExecutionState
  events : List ExecutionEvent
  deriving DecidableEq

/-- to_dict (execution_context.py lines 286-287, via the spec-modelled
FluxEncoder): serialize the context's fields. -/
def ExecutionContext.to_dict (ctx : ExecutionContext) : CtxDict :=
  { workflow_id := ctx.workflow_id
    workflow_name := ctx.workflow_name
    input := ctx.input
    execution_id := ctx.execution_id
    state := ctx.state
    events := ctx.events }

/-- from_json (execution_context.py lines 292-301): rebuild a context
through the constructor from the six serialized fields; the checkpoint
callback and the cancel event are not serialized, so the constructor
installs the no-op checkpoint and a fresh unset cancel event.  freshId is
the uuid the constructor would draw were the stored execution_id falsy. -/
def ExecutionContext.from_json (d : CtxDict) (freshId : String) : ExecutionContext :=
  ExecutionContext.init d.workflow_id d.workflow_name d.input
    (some d.execution_id) (some d.state) (some d.events) none none freshId

/-- Whether an event type is a terminal lifecycle event (the three types
ExecutionContext.has_finished inspects). -/
def isTerminalType (t : ExecutionEventType) : Bool :=
  decide (t = ExecutionEventType.WORKFLOW_COMPLETED) ||
    decide (t = ExecutionEventType.WORKFLOW_FAILED) ||
    decide (t = ExecutionEventType.WORKFLOW_CANCELED)

/-- A freshly created context, as built by workflow.run for a new
execution. -/
def ctx0 : ExecutionContext :=
  ExecutionContext.init "wf1" "wf1" (Value.vstr "in") none none none none none "exec1"

/-- A context that ran to completion: WORKFLOW_STARTED then
WORKFLOW_COMPLETED. -/
def ctxFinished : ExecutionContext :=
  (ctx0.start "wf1_exec1" "e1").complete "wf1_exec1" (Value.vstr "out") "e2"

/-- A context on which complete and then fail were both called. -/
def ctxTwoTerminal : ExecutionContext :=
  (ctx0.complete "wf1_exec1" (Value.vstr "ok") "e1").fail "wf1_exec1" (Value.verr "boom") "e2"

/-- A context whose event log already records a completed task, the replay
situation of a resumed execution. -/
def ctxReplay : ExecutionContext :=
  { ctx0 with
    events := [{ type := ExecutionEventType.TASK_COMPLETED, id := "say_hello_42",
                 source_id := "say_hello_42", name := "say_hello",
                 value := Value.vstr "Hello, Joe", time := 0 }] }

/-- A context whose only terminal event is WORKFLOW_CANCELED. -/
def ctxCanceledOnly : ExecutionContext :=
  ctx0.cancel "wf1_exec1" "Operation canceled" "e1"

/-- A worker with spare capacity and no packages. -/
def workerA : WorkerInfo :=
  { name := "workerA"
    resources := { cpu_total := 8, cpu_available := 4, memory_total := 16,
                   memory_available := 8, disk_total := 100, disk_free := 50, gpus := [] }
    packages := [] }

/-- A second worker, identical but for the name. -/
def workerB : WorkerInfo :=
  { workerA with name := "workerB" }

/-- A stored running execution with one recorded event. -/
def row4 : StoredExecution :=
  { execution_id := "exec4", workflow_id := "wf1", workflow_name := "wf1",
    input := Value.vstr "in", output := Value.vnone, state := ExecutionState.RUNNING,
    worker_name := none, requests := none,
    events := [{ type := ExecutionEventType.WORKFLOW_STARTED, id := "s1",
                 source_id := "wf1_exec4", name := "wf1", value := Value.vstr "in", time := 0 }] }

/-- A store holding only row4. -/
def store4 : ContextStore := [row4]

/-- The context of row4 after one further lifecycle event, to be saved
back. -/
def ctx4 : ExecutionContext :=
  row4.to_plain.complete "wf1_exec4" (Value.vstr "done") "c1"

/-- A stored execution already claimed by workerA. -/
def rowClaimed : StoredExecution :=
  { execution_id := "exec5", workflow_id := "wf1", workflow_name := "wf1",
    input := Value.vnone, output := Value.vnone, state := ExecutionState.CLAIMED,
    worker_name := some "workerA", requests := none,
    events := [{ type := ExecutionEventType.WORKFLOW_SCHEDULED, id := "e1",
                 source_id := "workerA", name := "workerA", value := Value.vnone, time := 0 },
               { type := ExecutionEventType.WORKFLOW_CLAIMED, id := "e2",
                 source_id := "workerA", name := "workerA", value := Value.vnone, time := 0 }] }

/-- A store holding only the already-claimed execution. -/
def store5 : ContextStore := [rowClaimed]

/-- The context returned by the second claim of exec5, now by workerB. -/
def ctx5B : ExecutionContext :=
  rowClaimed.to_plain.claim workerB "e9"

/-- The store after the second claim of exec5 by workerB. -/
def store5' : ContextStore :=
  [{ rowClaimed with
     state := ExecutionState.CLAIMED
     events := rowClaimed.events ++ additionalEvents ctx5B.events rowClaimed.events }]

/-- A pending execution with declared resource requests workerA satisfies. -/
def row6 : StoredExecution :=
  { execution_id := "exec6", workflow_id := "wf1", workflow_name := "wf1",
    input := Value.vnone, output := Value.vnone, state := ExecutionState.CREATED,
    worker_name := none,
    requests := some { cpu := some 2, memory := some 4, disk := none, gpu := none, packages := [] },
    events := [] }

/-- A store holding only the pending execution. -/
def store6 : ContextStore := [row6]

/-- The context nextExecution hands to workerA. -/
def ctx6 : ExecutionContext :=
  row6.to_plain.schedule workerA "e1"

/-- The store after nextExecution scheduled exec6 on workerA. -/
def store6' : ContextStore :=
  [{ row6 with
     state := ExecutionState.SCHEDULED
     events := row6.events ++ additionalEvents ctx6.events row6.events }]

/-- A user function failing on every retry attempt. -/
def failingAttempts : Nat → Except String Value :=
  fun _ => Except.error "boom"

/-- A finished context with the cancel signal set, about to be
checkpointed. -/
def ctx10 : ExecutionContext :=
  ctxFinished.set_cancellation

/-! Helper lemmas shared by the claim theorems. -/

/-- Looking a row up in a mapped store commutes with the map when the map
preserves the primary key. -/
theorem getRow_map (store : ContextStore) (i : String)
    (f : StoredExecution → StoredExecution)
    (hf : ∀ m, (f m).execution_id = m.execution_id) :
    getRow (store.map f) i = (getRow store i).map f := by
  induction store with
  | nil => rfl
  | cons m rest ih =>
    simp only [List.map_cons, getRow] at *
    by_cases h : m.execution_id = i
    · rw [List.find?_cons_of_pos _ (by simp [hf m, h]),
        List.find?_cons_of_pos _ (by simp [h])]
      rfl
    · rw [List.find?_cons_of_neg _ (by simp [hf m, h]),
        List.find?_cons_of_neg _ (by simp [h])]
      exact ih

/-- Merging a stored event list into itself adds nothing: every stored
event's (event_id, type) pair is already present. -/
theorem additionalEvents_self (l : List ExecutionEvent) : additionalEvents l l = [] := by
  rw [additionalEvents, List.filter_eq_nil_iff]
  intro e he
  simp only [decide_eq_true_eq, Decidable.not_not]
  exact List.mem_map_of_mem _ he

/-- The first event matching a predicate, through filter or through find?,
is the same event (and the head default when there is none). -/
theorem filterHead_eq_find (p : ExecutionEvent → Bool) (l : List ExecutionEvent) :
    (match l.filter p with
     | [] => Value.vnone
     | e :: _ => e.value) = ((l.find? p).map ExecutionEvent.value).getD Value.vnone := by
  induction l with
  | nil => rfl
  | cons a l ih =>
    by_cases h : p a
    · simp [List.filter_cons, List.find?_cons_of_pos _ h, h]
    · simpa [List.filter_cons, List.find?_cons_of_neg _ h, h] using ih

/-! Claim theorems. -/

/-- C3: when a context has finished (its last event is WORKFLOW_COMPLETED,
WORKFLOW_FAILED or WORKFLOW_CANCELED), invoking the workflow on it returns
the context unchanged — no event is appended and the output is that of the
original run, so re-running a finished execution is idempotent. -/
theorem workflowCall_finished_idempotent (ctx : ExecutionContext) (wid : String)
    (body : BodyOutcome) (eid1 eid2 : String) (h : ctx.has_finished = true) :
    workflowCall ctx wid body eid1 eid2 = ctx ∧
      (workflowCall ctx wid body eid1 eid2).events = ctx.events ∧
      (workflowCall ctx wid body eid1 eid2).output = ctx.output := by
  have heq : workflowCall ctx wid body eid1 eid2 = ctx := by
    simp [workflowCall, h]
  exact ⟨heq, by rw [heq], by rw [heq]⟩

/-- Witness for C3 at a concrete completed execution. -/
theorem workflowCall_finished_idempotent_witness :
    ctxFinished.has_finished = true ∧
      workflowCall ctxFinished "wf1_exec1" (BodyOutcome.success (Value.vstr "again")) "e3" "e4"
        = ctxFinished :=
  ⟨by decide,
   (workflowCall_finished_idempotent ctxFinished "wf1_exec1"
     (BodyOutcome.success (Value.vstr "again")) "e3" "e4" (by decide)).1⟩

/-- C2 counterexample: the typed helpers do not validate the current
state, so calling complete and then fail appends both terminal events —
the event list then holds two terminal lifecycle events and the earlier
one is not last, refuting the claimed validate-before-append behaviour. -/
theorem helpers_no_validation_counterexample :
    (ctxTwoTerminal.events.filter fun e => isTerminalType e.type).length = 2 ∧
      ctxTwoTerminal.events.map ExecutionEvent.type
        = [ExecutionEventType.WORKFLOW_COMPLETED, ExecutionEventType.WORKFLOW_FAILED] ∧
      ctxTwoTerminal.state = ExecutionState.FAILED := by
  decide

/-- C2 (amended): each typed helper (schedule, claim, start, resume,
pause, complete, fail, cancel) performs no validation of the current
state: on every context, terminal or not, it unconditionally appends
exactly one event of its type at the end of the event list and updates the
cached state, so the helpers themselves do not enforce that a terminal
lifecycle event is unique or last. -/
theorem helpers_append_unconditionally (ctx : ExecutionContext) (worker : WorkerInfo)
    (id label reason : String) (v : Value) (eid : String) :
    (∃ e, (ctx.schedule worker eid).events = ctx.events ++ [e] ∧
      e.type = ExecutionEventType.WORKFLOW_SCHEDULED ∧
      (ctx.schedule worker eid).state = ExecutionState.SCHEDULED) ∧
    (∃ e, (ctx.claim worker eid).events = ctx.events ++ [e] ∧
      e.type = ExecutionEventType.WORKFLOW_CLAIMED ∧
      (ctx.claim worker eid).state = ExecutionState.CLAIMED) ∧
    (∃ e, (ctx.start id eid).events = ctx.events ++ [e] ∧
      e.type = ExecutionEventType.WORKFLOW_STARTED ∧
      (ctx.start id eid).state = ExecutionState.RUNNING) ∧
    (∃ e, (ctx.resume id eid).events = ctx.events ++ [e] ∧
      e.type = ExecutionEventType.WORKFLOW_RESUMED ∧
      (ctx.resume id eid).state = ExecutionState.RUNNING) ∧
    (∃ e, (ctx.pause id label eid).events = ctx.events ++ [e] ∧
      e.type = ExecutionEventType.WORKFLOW_PAUSED ∧
      (ctx.pause id label eid).state = ExecutionState.PAUSED) ∧
    (∃ e, (ctx.complete id v eid).events = ctx.events ++ [e] ∧
      e.type = ExecutionEventType.WORKFLOW_COMPLETED ∧
      (ctx.complete id v eid).state = ExecutionState.COMPLETED) ∧
    (∃ e, (ctx.fail id v eid).events = ctx.events ++ [e] ∧
      e.type = ExecutionEventType.WORKFLOW_FAILED ∧
      (ctx.fail id v eid).state = ExecutionState.FAILED) ∧
    (∃ e, (ctx.cancel id reason eid).events = ctx.events ++ [e] ∧
      e.type = ExecutionEventType.WORKFLOW_CANCELED ∧
      (ctx.cancel id reason eid).state = ExecutionState.CANCELED) :=
  ⟨⟨_, rfl, rfl, rfl⟩, ⟨_, rfl, rfl, rfl⟩, ⟨_, rfl, rfl, rfl⟩, ⟨_, rfl, rfl, rfl⟩,
   ⟨_, rfl, rfl, rfl⟩, ⟨_, rfl, rfl, rfl⟩, ⟨_, rfl, rfl, rfl⟩, ⟨_, rfl, rfl, rfl⟩⟩

/-- C8: code-bug demonstration.  With the cancel signal set,
check_cancellation raises CancelationRequested inside the user procedure;
workflow.__call__ has no handler for it, so its except Exception clause
appends WORKFLOW_FAILED: the run ends FAILED with a WORKFLOW_FAILED event
and no WORKFLOW_CANCELED is ever appended, contrary to the claim (and to
the repository's own cancellation tests, which expect CANCELLED). -/
theorem workflowCall_cancelation_marks_failed :
    ctx0.set_cancellation.check_cancellation
        = Except.error FluxError.cancelationRequested ∧
      (workflowCall ctx0 "wf1_exec1" BodyOutcome.cancelationRequested "e1" "e2").events.map
          ExecutionEvent.type
        = [ExecutionEventType.WORKFLOW_STARTED, ExecutionEventType.WORKFLOW_FAILED] ∧
      (workflowCall ctx0 "wf1_exec1" BodyOutcome.cancelationRequested "e1" "e2").state
        = ExecutionState.FAILED ∧
      ((workflowCall ctx0 "wf1_exec1" BodyOutcome.cancelationRequested "e1" "e2").events.all
        fun e => decide (e.type ≠ ExecutionEventType.WORKFLOW_CANCELED)) = true :=
  ⟨rfl, by decide, by decide, by decide⟩

/-- C9: the output property is the value of the earliest
WORKFLOW_COMPLETED or WORKFLOW_FAILED event, and None when no such event
exists — in particular an unfinished or cancelled-only execution has
output None. -/
theorem output_first_terminal (ctx : ExecutionContext) :
    ctx.output
        = ((ctx.events.find? fun e =>
              decide (e.type = ExecutionEventType.WORKFLOW_COMPLETED) ||
                decide (e.type = ExecutionEventType.WORKFLOW_FAILED)).map
            ExecutionEvent.value).getD Value.vnone ∧
      ((∀ e ∈ ctx.events, e.type ≠ ExecutionEventType.WORKFLOW_COMPLETED ∧
          e.type ≠ ExecutionEventType.WORKFLOW_FAILED) →
        ctx.output = Value.vnone) := by
  constructor
  · exact filterHead_eq_find _ ctx.events
  · intro h
    rw [ExecutionContext.output, List.filter_eq_nil_iff.mpr]
    intro e he
    simp only [Bool.or_eq_true, decide_eq_true_eq, not_or]
    exact (h e he)

/-- Witness for C9 at a concrete execution whose only terminal event is
WORKFLOW_CANCELED. -/
theorem output_first_terminal_witness :
    ctxCanceledOnly.output = Value.vnone :=
  (output_first_terminal ctxCanceledOnly).2 (by decide)

/-- C1: when the context's events already contain a TASK_COMPLETED with
the task's event_id, the task runtime does not invoke the user procedure,
returns the recorded value (of the earliest such event) and emits
TASK_RESUMED. -/
theorem taskRun_replay_short_circuit (ctx : ExecutionContext) (event_id task_name : String)
    (funcOutput : Value)
    (h : ∃ e ∈ ctx.events, e.type = ExecutionEventType.TASK_COMPLETED ∧ e.id = event_id) :
    (taskRun ctx event_id task_name funcOutput).invoked = false ∧
      (∃ e ∈ ctx.events, e.type = ExecutionEventType.TASK_COMPLETED ∧ e.id = event_id ∧
        (taskRun ctx event_id task_name funcOutput).output = e.value) ∧
      (taskRun ctx event_id task_name funcOutput).events
        = ctx.events ++
          [{ type := ExecutionEventType.TASK_RESUMED, id := event_id, source_id := event_id,
             name := task_name,
             value := (taskRun ctx event_id task_name funcOutput).output, time := 0 }] := by
  have hs : (taskReplayLookup ctx.events event_id).isSome := by
    rw [taskReplayLookup, List.find?_isSome]
    obtain ⟨e, he, ht, hi⟩ := h
    exact ⟨e, he, by simp [ht, hi]⟩
  cases hfind : taskReplayLookup ctx.events event_id with
  | none => rw [hfind] at hs; simp at hs
  | some e =>
    have hmem := List.mem_of_find?_eq_some hfind
    have hp := List.find?_some hfind
    simp only [Bool.and_eq_true, decide_eq_true_eq] at hp
    refine ⟨?_, ⟨e, hmem, hp.1, hp.2, ?_⟩, ?_⟩ <;> simp [taskRun, hfind]

/-- Witness for C1 at a concrete context holding a recorded TASK_COMPLETED
for the replay key. -/
theorem taskRun_replay_short_circuit_witness :
    (∃ e ∈ ctxReplay.events, e.type = ExecutionEventType.TASK_COMPLETED ∧
      e.id = "say_hello_42") ∧
      (taskRun ctxReplay "say_hello_42" "say_hello" (Value.vstr "other")).invoked = false :=
  ⟨by decide,
   (taskRun_replay_short_circuit ctxReplay "say_hello_42" "say_hello" (Value.vstr "other")
     (by decide)).1⟩

/-- C4: saving an already-stored context appends to the stored event list
exactly the context events whose (event_id, type) pair is not yet present,
keeping the stored events as an unchanged prefix (nothing removed or
reordered); saving the context read back by get leaves the stored events
unchanged, so save is idempotent. -/
theorem save_merge_idempotent (store : ContextStore) (ctx : ExecutionContext)
    (m : StoredExecution) (h : getRow store ctx.execution_id = some m) :
    (getRow (save store ctx) ctx.execution_id).map StoredExecution.events
        = some (m.events ++ additionalEvents ctx.events m.events) ∧
      (∀ e ∈ additionalEvents ctx.events m.events, (e.id, e.type) ∉ eventKeys m.events) ∧
      (∀ c, getCtx store ctx.execution_id = Except.ok c →
        (getRow (save store c) ctx.execution_id).map StoredExecution.events
          = some m.events) := by
  have hid : m.execution_id = ctx.execution_id := by
    have hp := List.find?_some h
    simpa using hp
  refine ⟨?_, ?_, ?_⟩
  · simp only [save, h]
    rw [getRow_map _ _ _
      (fun r => by by_cases hr : r.execution_id = ctx.execution_id <;> simp [hr]), h]
    simp [hid]
  · intro e he
    simp only [additionalEvents, List.mem_filter, decide_eq_true_eq] at he
    exact he.2
  · intro c hc
    simp only [getCtx, h] at hc
    cases hc
    have h2 : getRow store m.to_plain.execution_id = some m := by
      show getRow store m.execution_id = some m
      rw [hid]; exact h
    simp only [save, h2]
    rw [getRow_map _ _ _
      (fun r => by
        by_cases hr : r.execution_id = m.to_plain.execution_id <;> simp [hr]), h]
    simp [StoredExecution.to_plain, additionalEvents_self]

/-- Witness for C4 at a concrete store and a context carrying one new
event. -/
theorem save_merge_idempotent_witness :
    getRow store4 ctx4.execution_id = some row4 ∧
      (getRow (save store4 ctx4) ctx4.execution_id).map StoredExecution.events
        = some (row4.events ++ additionalEvents ctx4.events row4.events) :=
  ⟨by decide, (save_merge_idempotent store4 ctx4 row4 (by decide)).1⟩

/-- C5 counterexample: exec5 is already CLAIMED by workerA (its events
hold a WORKFLOW_CLAIMED naming workerA), yet a second claim by workerB
succeeds — it returns an ok result whose context is CLAIMED and holds two
WORKFLOW_CLAIMED events — instead of failing with a ContextNotFound-style
error as the claim states. -/
theorem claim_not_exclusive_counterexample :
    claimStore store5 "exec5" workerB "e9" = Except.ok (store5', ctx5B) ∧
      rowClaimed.state = ExecutionState.CLAIMED ∧
      ctx5B.state = ExecutionState.CLAIMED ∧
      (ctx5B.events.filter fun e =>
        decide (e.type = ExecutionEventType.WORKFLOW_CLAIMED)).length = 2 :=
  ⟨rfl, rfl, by decide, by decide⟩

/-- C5 (amended): claim looks the execution up by id only: for any
existing execution it unconditionally transitions to CLAIMED and appends
WORKFLOW_CLAIMED naming the calling worker, whatever the current state or
previously bound worker (so a second claim also succeeds); only a missing
execution id fails, with ExecutionContextNotFoundError. -/
theorem claim_unconditional (store : ContextStore) (i : String) (worker : WorkerInfo)
    (eid : String) :
    (getRow store i = none →
      claimStore store i worker eid
        = Except.error (FluxError.executionContextNotFound i)) ∧
    (∀ m, getRow store i = some m →
      (∃ st, claimStore store i worker eid = Except.ok (st, m.to_plain.claim worker eid)) ∧
        (m.to_plain.claim worker eid).state = ExecutionState.CLAIMED ∧
        (m.to_plain.claim worker eid).events
          = m.events ++
            [{ type := ExecutionEventType.WORKFLOW_CLAIMED, id := eid,
               source_id := worker.name, name := worker.name,
               value := Value.vnone, time := 0 }]) := by
  constructor
  · intro h
    simp [claimStore, h]
  · intro m h
    refine ⟨⟨store.map (fun r =>
        if r.execution_id = i then
          { r with
            state := (m.to_plain.claim worker eid).state
            events := r.events ++
              additionalEvents (m.to_plain.claim worker eid).events r.events }
        else r), ?_⟩, rfl, rfl⟩
    simp [claimStore, h]

/-- Witness for C5 (amended) at the concrete already-claimed store. -/
theorem claim_unconditional_witness :
    getRow store5 "exec5" = some rowClaimed ∧
      (rowClaimed.to_plain.claim workerB "e9").state = ExecutionState.CLAIMED :=
  ⟨by decide,
   ((claim_unconditional store5 "exec5" workerB "e9").2 rowClaimed (by decide)).2.1⟩

/-- C6: any context returned by next_execution comes from a stored row in
CREATED state (hence in CREATED-or-SCHEDULED) whose declared resource
requests, when present, the worker satisfies; the returned context has
been transitioned to SCHEDULED with a WORKFLOW_SCHEDULED event naming the
worker; and when no eligible row exists the call returns none. -/
theorem nextExecution_spec (store : ContextStore) (worker : WorkerInfo) (eid : String) :
    (∀ store' ctx, nextExecution store worker eid = some (store', ctx) →
      ∃ m, m ∈ store ∧ m.execution_id = ctx.execution_id ∧
        m.state = ExecutionState.CREATED ∧ reqOk m worker = true ∧
        ctx.state = ExecutionState.SCHEDULED ∧
        ctx.events = m.events ++
          [{ type := ExecutionEventType.WORKFLOW_SCHEDULED, id := eid,
             source_id := worker.name, name := worker.name,
             value := Value.vnone, time := 0 }]) ∧
    ((∀ m ∈ store, ¬ ((m.state = ExecutionState.CREATED ∨
          m.state = ExecutionState.SCHEDULED) ∧ reqOk m worker = true)) →
      nextExecution store worker eid = none) := by
  constructor
  · intro store' ctx hsome
    unfold nextExecution at hsome
    cases hfind : (store.filter fun m => decide (m.state = ExecutionState.CREATED)).find?
        (fun m => reqOk m worker) with
    | none => rw [hfind] at hsome; exact absurd hsome (by simp)
    | some m =>
      rw [hfind] at hsome
      have hmem := List.mem_of_find?_eq_some hfind
      have hreq := List.find?_some hfind
      rw [List.mem_filter] at hmem
      simp only [Option.some.injEq, Prod.mk.injEq] at hsome
      obtain ⟨-, hctx⟩ := hsome
      subst hctx
      exact ⟨m, hmem.1, rfl, by simpa using hmem.2, hreq, rfl, rfl⟩
  · intro hno
    unfold nextExecution
    have hnone : (store.filter fun m => decide (m.state = ExecutionState.CREATED)).find?
        (fun m => reqOk m worker) = none := by
      rw [List.find?_eq_none]
      intro x hx
      rw [List.mem_filter] at hx
      have hc : x.state = ExecutionState.CREATED := by simpa using hx.2
      have hn := hno x hx.1
      intro hre
      exact hn ⟨Or.inl hc, hre⟩
    rw [hnone]

/-- Witness for C6 at a concrete store with one matching pending
execution. -/
theorem nextExecution_spec_witness :
    nextExecution store6 workerA "e1" = some (store6', ctx6) ∧
      ctx6.state = ExecutionState.SCHEDULED := by
  refine ⟨by decide, ?_⟩
  obtain ⟨m, -, -, -, -, h5, -⟩ :=
    (nextExecution_spec store6 workerA "e1").1 store6' ctx6 (by decide)
  exact h5

/-- C7 counterexample: with retry_max_attemps = 3, retry_delay = 1,
retry_backoff = 2 and a user function failing on every attempt, the
closure sleeps 1 second before every retry attempt — not the claimed
geometric retry_delay * retry_backoff ^ k (which would be 2, 4, 8 capped
at 600) — because current_delay is reset to retry_delay at the top of each
loop iteration; the events are three TASK_RETRY_STARTED with no
TASK_RETRY_COMPLETED pair for the failed attempts and no TASK_FAILED at
all. -/
theorem retry_constant_delay_counterexample :
    (retrySection 3 1 2 none "t1" "t" failingAttempts).delays = [1, 1, 1] ∧
      (retrySection 3 1 2 none "t1" "t" failingAttempts).delays ≠
        [min (1 * 2 ^ 1) 600, min (1 * 2 ^ 2) 600, min (1 * 2 ^ 3) 600] ∧
      (retrySection 3 1 2 none "t1" "t" failingAttempts).events.map ExecutionEvent.type
        = [ExecutionEventType.TASK_RETRY_STARTED, ExecutionEventType.TASK_RETRY_STARTED,
           ExecutionEventType.TASK_RETRY_STARTED] ∧
      (retrySection 3 1 2 none "t1" "t" failingAttempts).outcome
        = TaskOutcome.retryExhausted "boom" := by
  refine ⟨by decide, by decide, by decide, rfl⟩

/-- C7 (amended): over any run of the retry loop the sleep before every
retry attempt is the constant retry_delay (the value
min(retry_delay * retry_backoff, 600) is computed into the retry-event
metadata but never slept), no TASK_FAILED event is ever emitted, and
exactly one TASK_RETRY_STARTED is emitted per attempt slept
(TASK_RETRY_COMPLETED only follows a successful retry). -/
theorem retry_trace_spec (maxAttempts delay backoff : Nat) (fb : Option Value)
    (tid tname : String) (f : Nat → Except String Value) (attempts : List Nat) :
    (∀ d ∈ (retryGo maxAttempts delay backoff fb tid tname f attempts).delays, d = delay) ∧
      (∀ e ∈ (retryGo maxAttempts delay backoff fb tid tname f attempts).events,
        e.type ≠ ExecutionEventType.TASK_FAILED) ∧
      ((retryGo maxAttempts delay backoff fb tid tname f attempts).events.countP
          (fun e => decide (e.type = ExecutionEventType.TASK_RETRY_STARTED))
        = (retryGo maxAttempts delay backoff fb tid tname f attempts).delays.length) := by
  induction attempts with
  | nil => exact ⟨by simp [retryGo], by simp [retryGo], by simp [retryGo]⟩
  | cons a rest ih =>
    cases hr : f a with
    | ok v =>
      refine ⟨?_, ?_, ?_⟩ <;>
        simp [retryGo, hr, retryEvent, List.countP_cons, List.countP_nil]
    | error err =>
      by_cases hrest : rest.isEmpty
      · cases fb with
        | some fv =>
          refine ⟨?_, ?_, ?_⟩ <;>
            simp [retryGo, hr, hrest, retryEvent, List.countP_cons, List.countP_nil]
        | none =>
          refine ⟨?_, ?_, ?_⟩ <;>
            simp [retryGo, hr, hrest, retryEvent, List.countP_cons, List.countP_nil]
      · have hgo : retryGo maxAttempts delay backoff fb tid tname f (a :: rest)
            = { delays :=
                  delay :: (retryGo maxAttempts delay backoff fb tid tname f rest).delays,
                events :=
                  retryEvent ExecutionEventType.TASK_RETRY_STARTED tid tname a maxAttempts
                      (min (delay * backoff) 600) backoff ::
                    (retryGo maxAttempts delay backoff fb tid tname f rest).events,
                outcome :=
                  (retryGo maxAttempts delay backoff fb tid tname f rest).outcome } := by
          simp [retryGo, hr, hrest]
        rw [hgo]
        refine ⟨?_, ?_, ?_⟩
        · intro d hd
          rcases List.mem_cons.mp hd with h1 | h1
          · exact h1
          · exact ih.1 d h1
        · intro e he
          rcases List.mem_cons.mp he with h1 | h1
          · subst h1; simp [retryEvent]
          · exact ih.2.1 e h1
        · simp [List.countP_cons, retryEvent, ih.2.2]

/-- Witness for C7 (amended): the per-attempt accounting at the concrete
failing run. -/
theorem retry_trace_spec_witness :
    (retrySection 3 1 2 none "t1" "t" failingAttempts).events.countP
        (fun e => decide (e.type = ExecutionEventType.TASK_RETRY_STARTED))
      = (retrySection 3 1 2 none "t1" "t" failingAttempts).delays.length :=
  (retry_trace_spec 3 1 2 none "t1" "t" failingAttempts (List.range' 1 3)).2.2

/-- C10: round-tripping a context through to_dict and from_json preserves
execution_id (nonempty by construction, hence not replaced by a fresh
uuid), workflow_id, workflow_name, input, state and events, while the
in-memory cancel signal and the checkpoint callback are reset to the
constructor defaults — in particular, even after set_cancellation on the
original, check_cancellation on the restored context does not raise. -/
theorem roundtrip_resets_cancel (ctx : ExecutionContext) (freshId : String)
    (h : ctx.execution_id.isEmpty = false) :
    ExecutionContext.from_json ctx.to_dict freshId
        = { ctx with cancelSet := false, checkpoint_cb := none, requests := none } ∧
      (ExecutionContext.from_json ctx.set_cancellation.to_dict freshId).check_cancellation
        = Except.ok () := by
  constructor
  · simp [ExecutionContext.from_json, ExecutionContext.to_dict, ExecutionContext.init, h]
  · simp [ExecutionContext.from_json, ExecutionContext.to_dict, ExecutionContext.init,
      ExecutionContext.check_cancellation]

/-- Witness for C10 at a concrete finished context with the cancel signal
set. -/
theorem roundtrip_resets_cancel_witness :
    ctx10.execution_id.isEmpty = false ∧
      (ExecutionContext.from_json ctx10.set_cancellation.to_dict "fresh9").check_cancellation
        = Except.ok () :=
  ⟨by decide, (roundtrip_resets_cancel ctx10 "fresh9" (by decide)).2⟩

end Flux
